import Mathlib

set_option maxHeartbeats 1000000

/-!
Verification development for the WebSocketKafkaStreamer repository.

The definitions below are shallow embeddings of the Python sources:
the bounded stream buffer of `src/app.py` / `src/generic_dashboard.py` /
`src/websocket_server.py`, the upload route of `src/app.py`, and the
normalization pipeline of `src/data_processor.py`.  External library calls
(pandas parsing primitives, codec decoding) are modelled as explicit
oracle parameters; everything written by the repository itself is
translated directly.
-/

namespace WKS

/-- Retention cap of the stream buffers: `src/app.py` hardcodes 1000 and
`GenericDataDashboard.__init__` sets `self.max_records = 1000`. -/
def max_records : Nat := 1000

/-- Embedding of the buffer update shared by `add_data_to_stream`
(`src/app.py` lines 63-74) and `GenericDataDashboard._add_data_to_stream`
(`src/generic_dashboard.py` lines 350-360), parametrized by the cap:
extend the buffer with the batch, then, when the length exceeds the cap,
keep only the last `cap` records (the python slice `current_data[-cap:]`).
The python non-list branch (`current_data.append(data_list)`) is the
special case of a one-element batch. -/
def stream_append (cap : Nat) (current_data data_list : List α) : List α :=
  let extended := current_data ++ data_list
  if extended.length > cap then extended.drop (extended.length - cap) else extended

/-- Buffer update of `add_data_to_stream` in `src/app.py` (cap hardcoded 1000). -/
def add_data_to_stream (current_data data_list : List α) : List α :=
  stream_append 1000 current_data data_list

/-- Buffer update of `GenericDataDashboard._add_data_to_stream`
(`src/generic_dashboard.py`, cap `self.max_records`). -/
def generic_add_data_to_stream (current_data new_data : List α) : List α :=
  stream_append max_records current_data new_data

/-- Shape of the `new_data` payload emitted by `add_data_to_stream` and by the
connect handler of `src/generic_dashboard.py`:
`{data, total_records, timestamp}`. -/
structure NewData (α : Type) where
  data : List α
  total_records : Nat
  timestamp : Nat
deriving DecidableEq

/-- Python value handed to `WebSocketServer.add_data`: a dict (one record),
a list of records, or anything else (the unsupported-type case). -/
inductive PyData (α : Type) where
  | dict (record : α)
  | list (records : List α)
  | other
deriving DecidableEq

/-- Shape of the `new_data` payload emitted by `WebSocketServer.add_data`:
`{data, source, timestamp}`. -/
structure WsMsg (α : Type) where
  data : List α
  source : String
  timestamp : Nat
deriving DecidableEq

/-- Embedding of `WebSocketServer.add_data` (`src/websocket_server.py`
lines 54-80): a dict is appended, a list extends, any other type logs a
warning and returns before any mutation or emission; otherwise truncate to
the last 1000 records and emit one broadcast built from the updated
`payload_list`.  Returns the updated buffer together with the list of
broadcasts emitted during the call. `now` models `time.time()`. -/
def ws_add_data (now : Nat) (payload_list : List α) (data : PyData α) :
    List α × List (WsMsg α) :=
  match data with
  | .other => (payload_list, [])
  | .dict r =>
    let l := stream_append 1000 payload_list [r]
    (l, [⟨l, "real_time", now⟩])
  | .list rs =>
    let l := stream_append 1000 payload_list rs
    (l, [⟨l, "real_time", now⟩])

/-- Embedding of the connect handler of `src/generic_dashboard.py`
(lines 139-148): on connect, one `new_data` message holding the whole
current buffer is emitted to the new client. -/
def generic_handle_connect (now : Nat) (current_data : List α) : List (NewData α) :=
  [⟨current_data, current_data.length, now⟩]

/-- Embedding of the connect handler of `src/app.py` (lines 170-173): the
handler only logs; no message is emitted to the connecting client. -/
def app_handle_connect (_current_data : List α) : List (NewData α) :=
  []

/-- Suffix of the characters after the LAST dot of a filename, `none` when
the filename has no dot.  This models `'.' in filename` together with
`filename.rsplit('.', 1)[1]`. -/
def ext_after_dot : List Char → Option (List Char)
  | [] => none
  | c :: rest =>
    match ext_after_dot rest with
    | some e => some e
    | none => if c == '.' then some rest else none

/-- Embedding of `allowed_file` in `src/app.py`: the filename contains a dot
and the lower-cased extension after the last dot is `json` or `csv`. -/
def allowed_file (filename : String) : Bool :=
  match ext_after_dot filename.data with
  | none => false
  | some e =>
    (String.mk (e.map Char.toLower) == "json") || (String.mk (e.map Char.toLower) == "csv")

/-- HTTP-level outcome of the upload route: a success payload or an error
payload with its status code. -/
inductive UploadResponse where
  | ok (message : String) (records : Nat)
  | err (reason : String) (code : Nat)
deriving DecidableEq

/-- Embedding of the `upload_data` route of `src/app.py` (lines 83-122).
`file?` is the filename of the posted file part (if any); `processed` is
the outcome of `data_processor.process_file` on the saved payload (the
route catches the exception and answers 500).  Returns the HTTP response
together with the stream buffer after the call; the buffer is only touched
by `add_data_to_stream`, which runs after processing succeeded. -/
def upload_data (current_data : List α) (file? : Option String)
    (processed : Except String (List α)) : UploadResponse × List α :=
  match file? with
  | none => (.err "No file selected" 400, current_data)
  | some filename =>
    if filename = "" then (.err "No file selected" 400, current_data)
    else if allowed_file filename then
      match processed with
      | .error e => (.err ("Error processing file: " ++ e) 500, current_data)
      | .ok records =>
        (.ok ("File " ++ filename ++ " uploaded and processed successfully") records.length,
          add_data_to_stream current_data records)
    else (.err "Invalid file type. Please upload JSON or CSV files." 400, current_data)

/-- Last `cap` elements of a list (everything when the list is short). -/
def lastN (cap : Nat) (l : List α) : List α :=
  l.drop (l.length - cap)

/-- Semantic type of a dataframe column (pandas dtype, restricted to the
three shapes this pipeline produces). -/
inductive Dtype where
  | object
  | numeric
  | datetime
deriving DecidableEq

/-- Value of one dataframe cell: null (NaN/NaT/None), text, numeric, or
timestamp. -/
inductive Cell where
  | null
  | s (v : String)
  | i (v : Int)
  | t (v : Nat)
deriving DecidableEq

/-- Test for the null cell. -/
def Cell.isNull : Cell → Bool
  | .null => true
  | _ => false

/-- Named dataframe column: the dtype tag plus the cells in row order. -/
structure Col where
  name : String
  dtype : Dtype
  cells : List Cell
deriving DecidableEq

/-- Whitespace characters stripped by python str.strip(). -/
def charIsSpace (c : Char) : Bool :=
  c == ' ' || c == '\t' || c == '\n' || c == '\r'

/-- Boolean list-prefix test. -/
def listPrefixOf : List Char → List Char → Bool
  | [], _ => true
  | _ :: _, [] => false
  | a :: as, b :: bs => a == b && listPrefixOf as bs

/-- Boolean substring test on character lists (python in operator). -/
def containsSub : List Char → List Char → Bool
  | [], sub => sub.isEmpty
  | c :: t, sub => listPrefixOf sub (c :: t) || containsSub t sub

/-- Temporal keywords of `DataProcessor._parse_datetime_columns`. -/
def datetime_keywords : List String :=
  ["date", "time", "timestamp", "created", "updated", "start", "end"]

/-- Embedding of the column-name test
`any(keyword in col.lower() for keyword in datetime_keywords)`. -/
def hasDatetimeKeyword (name : String) : Bool :=
  datetime_keywords.any (fun k => containsSub (name.data.map Char.toLower) k.data)

/-- Element-level outcome of pandas `to_datetime` on one cell, with the
string parser `dtParse` and the numeric epoch conversion `epochConv` as
oracle parameters for the pandas parsing primitives.  Outer `none` means
the element raises; `some none` means the element converts to NaT. -/
def cellToTimestamp (dtParse : String → Option Nat) (epochConv : Int → Nat) :
    Cell → Option (Option Nat)
  | .null => some none
  | .s v => (dtParse v).map (fun ts => some ts)
  | .i n => some (some (epochConv n))
  | .t ts => some (some ts)

/-- Embedding of `pd.to_datetime(df[col], errors='ignore')` as called by
`DataProcessor._parse_datetime_columns`: with that flag pandas returns the
entire input column unchanged when ANY element fails to parse; otherwise
the whole column becomes datetime, null cells becoming NaT. -/
def to_datetime_ignore (dtParse : String → Option Nat) (epochConv : Int → Nat)
    (c : Col) : Col :=
  if c.cells.all (fun x => (cellToTimestamp dtParse epochConv x).isSome) then
    ⟨c.name, Dtype.datetime, c.cells.map (fun x =>
      match cellToTimestamp dtParse epochConv x with
      | some (some ts) => Cell.t ts
      | _ => Cell.null)⟩
  else c

/-- Embedding of `DataProcessor._parse_datetime_columns` on one column:
columns whose lower-cased name contains a temporal keyword go through
`to_datetime` with `errors='ignore'`; all other columns are untouched. -/
def parse_datetime_col (dtParse : String → Option Nat) (epochConv : Int → Nat)
    (c : Col) : Col :=
  if hasDatetimeKeyword c.name then to_datetime_ignore dtParse epochConv c else c

/-- Embedding of `DataProcessor._parse_datetime_columns` over the frame. -/
def parse_datetime_columns (dtParse : String → Option Nat) (epochConv : Int → Nat)
    (df : List Col) : List Col :=
  df.map (parse_datetime_col dtParse epochConv)

/-- Element-level outcome of `pd.to_numeric(df[col], errors='coerce')` on one
cell: nulls and unparseable strings coerce to NaN (`none`), numbers pass
through, with the string parser `numParse` as the oracle for the pandas
numeric parsing primitive. -/
def parse_numeric_cell (numParse : String → Option Int) : Cell → Option Int
  | .null => none
  | .s v => numParse v
  | .i n => some n
  | .t _ => none

/-- Embedding of `DataProcessor._parse_numeric_columns` on one column: only
object-dtype columns are considered; the column is converted to the coerced
numeric series exactly when `numeric_series.notna().sum() / len(df) > 0.5`,
i.e. when strictly more than half of ALL rows (the frame length, nulls
included) parse as numbers — rendered here as `2 * parsed > length`, which
is exact for the row counts a dataframe can hold.  Otherwise the column is
left completely unchanged. -/
def parse_numeric_col (numParse : String → Option Int) (c : Col) : Col :=
  if c.dtype == Dtype.object then
    let numeric_series := c.cells.map (parse_numeric_cell numParse)
    if 2 * numeric_series.countP Option.isSome > c.cells.length then
      ⟨c.name, Dtype.numeric, numeric_series.map (fun o =>
        match o with
        | some n => Cell.i n
        | none => Cell.null)⟩
    else c
  else c

/-- Embedding of `DataProcessor._parse_numeric_columns` over the frame. -/
def parse_numeric_columns (numParse : String → Option Int) (df : List Col) : List Col :=
  df.map (parse_numeric_col numParse)

/-- Modelled from the claim wording for C5 (spec section 4.2): adopt the
numeric type exactly when strictly more than 50% of the NON-NULL values of
the column parse as numbers. -/
def claim_adopts_numeric (numParse : String → Option Int) (c : Col) : Bool :=
  decide (2 * (c.cells.map (parse_numeric_cell numParse)).countP Option.isSome
    > c.cells.countP (fun x => !x.isNull))

/-- Modelled from the claim wording for C8 (spec section 4.2): on a
temporal-keyword column the timestamp type is adopted for every value, each
individually unparseable cell becoming null instead of the column failing
(the per-cell coercion reading of `to_datetime`). -/
def claim_parse_datetime_col (dtParse : String → Option Nat) (epochConv : Int → Nat)
    (c : Col) : Col :=
  if hasDatetimeKeyword c.name then
    ⟨c.name, Dtype.datetime, c.cells.map (fun x =>
      match cellToTimestamp dtParse epochConv x with
      | some (some ts) => Cell.t ts
      | _ => Cell.null)⟩
  else c

/-- Concrete instance of the pandas numeric element parser: unsigned decimal
digit strings (adequate for every string exercised by the scenarios). -/
def pyNum (s : String) : Option Int :=
  if !s.data.isEmpty && s.data.all Char.isDigit then
    some (Int.ofNat (s.data.foldl (fun acc c => 10 * acc + (c.toNat - 48)) 0))
  else none

/-- Concrete instance of the pandas `to_datetime` element parser: parses the
one ISO date used in the scenarios and fails on everything else, exactly as
the real parser does on those inputs. -/
def dtParse0 (s : String) : Option Nat :=
  if s = "2024-01-01" then some 1704067200 else none

/-- Concrete epoch conversion for integer cells. -/
def epochId (n : Int) : Nat := n.toNat

/-- Python `col.strip().replace(' ', '_').lower()` from
`DataProcessor._clean_dataframe`. -/
def clean_field_name (s : String) : String :=
  let stripped := ((s.data.dropWhile charIsSpace).reverse.dropWhile charIsSpace).reverse
  String.mk (stripped.map (fun c => (if c == ' ' then '_' else c).toLower))

/-- Number of rows of the frame, read off the first column (exact whenever
the frame still has a column). -/
def rowCount (df : List Col) : Nat :=
  match df with
  | [] => 0
  | c :: _ => c.cells.length

/-- Cell of a column at a row index (null when out of range). -/
def cellAt (c : Col) (idx : Nat) : Cell :=
  c.cells.getD idx Cell.null

/-- Embedding of `df.dropna(how='all')`: remove every row whose cells are
null in every column. -/
def dropEmptyRows (df : List Col) : List Col :=
  let keep := (List.range (rowCount df)).filter
    (fun idx => df.any (fun c => !(cellAt c idx).isNull))
  df.map (fun c => ⟨c.name, c.dtype, keep.map (fun idx => cellAt c idx)⟩)

/-- Embedding of `df.dropna(axis=1, how='all')`: drop the columns whose
cells are all null. -/
def dropEmptyCols (df : List Col) : List Col :=
  df.filter (fun c => c.cells.any (fun x => !x.isNull))

/-- Embedding of `DataProcessor._clean_dataframe` (lines 120-144): drop the
all-empty rows and columns, canonicalize column names, run the datetime and
numeric column inference, then attach the two metadata columns.  `now`
models the `datetime.now()` read performed during the call — the only
input of the pipeline that differs between two runs on identical bytes. -/
def clean_dataframe (numParse : String → Option Int) (dtParse : String → Option Nat)
    (epochConv : Int → Nat) (now : Nat) (df : List Col) : List Col :=
  let d1 := dropEmptyCols (dropEmptyRows df)
  let d2 := d1.map (fun c => ⟨clean_field_name c.name, c.dtype, c.cells⟩)
  let d3 := parse_datetime_columns dtParse epochConv d2
  let d4 := parse_numeric_columns numParse d3
  let n := rowCount d4
  d4 ++ [⟨"_processed_at", Dtype.datetime, List.replicate n (Cell.t now)⟩,
    ⟨"_record_id", Dtype.numeric, (List.range n).map (fun idx => Cell.i idx)⟩]

/-- Frame with every `_processed_at` column removed (the wall-clock
metadata attached by `_clean_dataframe`). -/
def drop_processed_at (df : List Col) : List Col :=
  df.filter (fun c => !(c.name == "_processed_at"))

/-- Name/dtype view of a frame: the inferred column types. -/
def dtypes (df : List Col) : List (String × Dtype) :=
  df.map (fun c => (c.name, c.dtype))

/-- Outcome of one `pd.read_csv(filepath, encoding=e)` attempt: a frame, a
UnicodeDecodeError, or some other raised exception. -/
inductive ReadResult (δ : Type) where
  | ok (df : δ)
  | unicodeError
  | raised (msg : String)
deriving DecidableEq

/-- Candidate encodings of `DataProcessor._process_csv_file`, in source
order. -/
def encodings : List String := ["utf-8", "latin-1", "cp1252"]

/-- Failure of the CSV reading stage. -/
inductive CsvFailure where
  | undecodable
  | propagated (msg : String)
deriving DecidableEq

/-- Embedding of the encoding loop of `DataProcessor._process_csv_file`
(lines 73-82): try `pd.read_csv` with each candidate encoding in order;
a UnicodeDecodeError moves on to the next candidate, a success breaks out,
any other exception propagates.  `read` is the oracle giving the outcome
of `pd.read_csv` at each encoding for the fixed payload; the result is the
first successful frame, if any. -/
def csv_read_loop {δ : Type} (read : String → ReadResult δ) :
    List String → Except CsvFailure (Option δ)
  | [] => Except.ok none
  | e :: rest =>
    match read e with
    | .ok df => Except.ok (some df)
    | .unicodeError => csv_read_loop read rest
    | .raised msg => Except.error (CsvFailure.propagated msg)

/-- Embedding of the reading stage of `DataProcessor._process_csv_file`
(lines 73-85): run the encoding loop, and raise the undecodable
ValueError when no candidate produced a frame. -/
def read_csv_with_fallback {δ : Type} (read : String → ReadResult δ) :
    Except CsvFailure δ :=
  match csv_read_loop read encodings with
  | .error f => Except.error f
  | .ok none => Except.error CsvFailure.undecodable
  | .ok (some df) => Except.ok df

/-- Full `_process_csv_file`: the successfully read frame is passed through
`_clean_dataframe` (abstracted by `clean`). -/
def process_csv_file {δ : Type} (clean : δ → δ)
    (read : String → ReadResult δ) : Except CsvFailure δ :=
  match read_csv_with_fallback read with
  | .error f => Except.error f
  | .ok df => Except.ok (clean df)

/-- JSON value as parsed by `json.load`. -/
inductive JValue where
  | null
  | b (v : Bool)
  | num (v : Int)
  | s (v : String)
  | arr (items : List JValue)
  | obj (fields : List (String × JValue))

/-- Scalar test of `_process_json_file`:
`isinstance(v, (str, int, float, bool))` — null, arrays and objects are not
scalars. -/
def isScalar : JValue → Bool
  | .s _ => true
  | .num _ => true
  | .b _ => true
  | _ => false

/-- Array test. -/
def isArr : JValue → Bool
  | .arr _ => true
  | _ => false

/-- Element count of an array value, 0 for non-arrays. -/
def arrLen : JValue → Nat
  | .arr xs => xs.length
  | _ => 0

/-- Conventional container keys of `DataProcessor._find_main_data_key`, in
source order. -/
def common_keys : List String :=
  ["data", "items", "records", "results", "rows", "entries"]

/-- Test that an optional looked-up value is an array. -/
def isArrValue : Option JValue → Bool
  | some (.arr _) => true
  | _ => false

/-- Embedding of the largest-array loop of `_find_main_data_key`
(lines 109-118): iterate the fields in order, remembering the first field
whose array is strictly longer than everything seen before (`max_len`
starts at 0, so an empty array never wins). -/
def find_largest_loop : List (String × JValue) → Nat → Option String → Option String
  | [], _, best => best
  | kv :: rest, maxLen, best =>
    match kv.2 with
    | .arr xs =>
      if xs.length > maxLen then find_largest_loop rest xs.length (some kv.1)
      else find_largest_loop rest maxLen best
    | _ => find_largest_loop rest maxLen best

/-- Embedding of `DataProcessor._find_main_data_key` (lines 100-118): first
conventional key whose value is an array, else the largest-array loop. -/
def find_main_data_key (fields : List (String × JValue)) : Option String :=
  match common_keys.find? (fun k => isArrValue (fields.lookup k)) with
  | some k => some k
  | none => find_largest_loop fields 0 none

/-- Modelled from the claim wording for C6 step 2 (spec section 4.1): the
array-valued field with the greatest element count, ties broken by the
first-encountered key — with no restriction to non-empty arrays. -/
def claim_find_largest (fields : List (String × JValue)) : Option String :=
  if fields.any (fun kv => isArr kv.2) then
    let m := (fields.map (fun kv => arrLen kv.2)).foldl Nat.max 0
    (fields.find? (fun kv => isArr kv.2 && arrLen kv.2 == m)).map Prod.fst
  else none

/-- Record-source selection as the claim C6 words it: conventional key
first, then the largest array field (empty ones included), then flatten. -/
def claim_find_main_data_key (fields : List (String × JValue)) : Option String :=
  match common_keys.find? (fun k => isArrValue (fields.lookup k)) with
  | some k => some k
  | none => claim_find_largest fields

/-- Amended step 2: only arrays with at least one element are candidates
(the loop starts its maximum at 0 and uses a strict comparison); ties are
broken by the first-encountered key. -/
def amended_find_largest (fields : List (String × JValue)) : Option String :=
  let m := (fields.map (fun kv => arrLen kv.2)).foldl Nat.max 0
  if m = 0 then none
  else (fields.find? (fun kv => arrLen kv.2 == m)).map Prod.fst

/-- Amended record-source selection (what the code computes). -/
def amended_find_main_data_key (fields : List (String × JValue)) : Option String :=
  match common_keys.find? (fun k => isArrValue (fields.lookup k)) with
  | some k => some k
  | none => amended_find_largest fields

/-- Embedding of `pd.json_normalize` on a nested object: nested objects are
flattened into dot-separated paths, other values kept as they are,
producing the single flattened record. -/
def flatten_fields : List (String × JValue) → List (String × JValue)
  | [] => []
  | (k, JValue.obj fs) :: rest =>
    (flatten_fields fs).map (fun p => (k ++ "." ++ p.1, p.2)) ++ flatten_fields rest
  | (k, v) :: rest => (k, v) :: flatten_fields rest

/-- Embedding of lines 47-53 of `DataProcessor._process_json_file`:
`main_key = self._find_main_data_key(data)` followed by the guard
`if main_key and isinstance(data[main_key], list)`.  `main_key` is tested
for python truthiness, so it is falsy both when it is `None` and when it
is the EMPTY STRING: an empty-string key, even holding the largest array,
falls through to `pd.json_normalize` (the flattened single record). -/
def select_records (fields : List (String × JValue)) : Except String (List JValue) :=
  match find_main_data_key fields with
  | some k =>
    if k = "" then Except.ok [JValue.obj (flatten_fields fields)]
    else
      match fields.lookup k with
      | some (.arr xs) => Except.ok xs
      | _ => Except.ok [JValue.obj (flatten_fields fields)]
  | none => Except.ok [JValue.obj (flatten_fields fields)]

/-- Embedding of the structure dispatch of `DataProcessor._process_json_file`
(lines 40-55): a top-level array yields one record per element; an all-scalar
object yields the single record; otherwise the main data key is searched and
the truthiness-guarded selection of `select_records` runs; non-object
non-array payloads raise.  Returns the list of records the selected source
produces (before `_clean_dataframe`). -/
def process_json_value : JValue → Except String (List JValue)
  | .arr xs => Except.ok xs
  | .obj fields =>
    if fields.all (fun kv => isScalar kv.2) then Except.ok [JValue.obj fields]
    else select_records fields
  | _ => Except.error "JSON data must be an object or array"

/-- Concrete all-failing read oracle (every encoding raises
UnicodeDecodeError). -/
def readAllFail : String → ReadResult Nat :=
  fun _ => ReadResult.unicodeError

/-- Concrete read oracle where only latin-1 decodes. -/
def readLatin1Only : String → ReadResult Nat :=
  fun e => if e = "latin-1" then ReadResult.ok 7 else ReadResult.unicodeError

theorem stream_append_eq_lastN (cap : Nat) (cur batch : List α) :
    stream_append cap cur batch = lastN cap (cur ++ batch) := by
  simp only [stream_append, lastN]
  split
  · rfl
  · next h => rw [Nat.sub_eq_zero_of_le (Nat.le_of_not_lt h), List.drop_zero]

theorem lastN_append_lastN (cap : Nat) (l b : List α) :
    lastN cap (lastN cap l ++ b) = lastN cap (l ++ b) := by
  have hk : l.length - cap ≤ l.length := Nat.sub_le _ _
  unfold lastN
  rw [← List.drop_append_of_le_length hk, List.drop_drop]
  congr 1
  simp only [List.length_drop, List.length_append]
  omega

theorem foldl_stream_append (cap : Nat) :
    ∀ (bs : List (List α)) (l : List α),
      bs.foldl (stream_append cap) (lastN cap l) = lastN cap (l ++ bs.flatten)
  | [], l => by simp
  | b :: bs, l => by
    rw [List.foldl_cons, stream_append_eq_lastN, lastN_append_lastN,
      foldl_stream_append cap bs (l ++ b)]
    simp [List.append_assoc]

theorem foldl_stream_append_nil (cap : Nat) (bs : List (List α)) :
    bs.foldl (stream_append cap) [] = lastN cap bs.flatten := by
  have h := foldl_stream_append cap bs []
  simpa [lastN] using h

theorem flatten_map_singleton (l : List α) : (l.map (fun a => [a])).flatten = l := by
  induction l with
  | nil => simp
  | cons a t ih => simp [ih]

/-- C1: after every append the buffer holds at most `cap` records and, for a
non-empty batch, ends with the batch's last record; a single batch larger
than the cap is accepted and leaves the buffer equal to the most recent
`cap` records of that batch.  The same buffer update is performed by
`add_data_to_stream` and by both batch shapes of
`WebSocketServer.add_data`. -/
theorem C1_stream_buffer_bound_and_recency {α : Type} (cap : Nat) (hcap : 0 < cap)
    (cur batch : List α) (now : Nat) (r : α) :
    (stream_append cap cur batch).length ≤ cap
    ∧ (batch ≠ [] → (stream_append cap cur batch).getLast? = batch.getLast?)
    ∧ (cap < batch.length → stream_append cap cur batch = batch.drop (batch.length - cap))
    ∧ add_data_to_stream cur batch = stream_append 1000 cur batch
    ∧ (ws_add_data now cur (PyData.list batch)).1 = stream_append 1000 cur batch
    ∧ (ws_add_data now cur (PyData.dict r)).1 = stream_append 1000 cur [r] := by
  refine ⟨?_, ?_, ?_, rfl, rfl, rfl⟩
  · rw [stream_append_eq_lastN]
    unfold lastN
    rw [List.length_drop]
    omega
  · intro hb
    have hlen : 0 < batch.length := List.length_pos.mpr hb
    rw [stream_append_eq_lastN]
    unfold lastN
    rw [List.getLast?_drop, if_neg (by simp only [List.length_append]; omega),
      List.getLast?_append]
    cases hx : batch.getLast? with
    | none => exact absurd (List.getLast?_eq_none_iff.mp hx) hb
    | some a => rfl
  · intro hover
    rw [stream_append_eq_lastN]
    unfold lastN
    have h1 : (cur ++ batch).length - cap = cur.length + (batch.length - cap) := by
      simp only [List.length_append]; omega
    rw [h1, ← List.drop_drop, List.drop_left]

/-- C1 witness: a concrete run exercising the bound, the last-element
property and the oversized-batch truncation. -/
theorem C1_stream_buffer_witness :
    (stream_append 2 [0] [1, 2, 3]).length ≤ 2
    ∧ (stream_append 2 [0] [1, 2, 3]).getLast? = some 3
    ∧ stream_append 2 ([0] : List Nat) [1, 2, 3] = [2, 3] := by
  have h := C1_stream_buffer_bound_and_recency 2 (by decide) [0] [1, 2, 3] 0 (5 : Nat)
  refine ⟨h.1, ?_, ?_⟩
  · rw [h.2.1 (by decide)]; decide
  · rw [h.2.2.1 (by decide)]; decide

/-- C2: survivors of an earlier batch precede the records of a later batch
(the post-state splits into a suffix of the pre-state plus the earlier
batch, followed by a suffix of the later batch), and appending 1500
single-record batches to an empty buffer with cap 1000 yields exactly the
records 501 through 1500 in order. -/
theorem C2_recency_ordering_and_scenario_C {α : Type} (buf b1 b2 : List α) :
    (∃ s1 s2 : List α,
        stream_append 1000 (stream_append 1000 buf b1) b2 = s1 ++ s2
        ∧ List.IsSuffix s1 (buf ++ b1) ∧ List.IsSuffix s2 b2)
    ∧ ((List.range' 1 1500).map (fun i => [i])).foldl add_data_to_stream []
        = List.range' 501 1000
    ∧ (((List.range' 1 1500).map (fun i => [i])).foldl add_data_to_stream []).length = 1000
    ∧ (∀ cur batch : List α, generic_add_data_to_stream cur batch = add_data_to_stream cur batch) := by
  have happ : (add_data_to_stream : List Nat → List Nat → List Nat) = stream_append 1000 := rfl
  have h2 : ((List.range' 1 1500).map (fun i => [i])).foldl add_data_to_stream ([] : List Nat)
      = List.range' 501 1000 := by
    rw [happ, foldl_stream_append_nil, flatten_map_singleton]
    unfold lastN
    rw [List.length_range']
    rw [show List.range' 1 1500 = List.range' 1 500 ++ List.range' 501 1000 from
      (List.range'_append_1 1 500 1000).symm]
    rw [List.drop_left' (by rw [List.length_range'])]
  refine ⟨?_, h2, by rw [h2, List.length_range'], fun cur batch => rfl⟩
  rw [stream_append_eq_lastN, stream_append_eq_lastN, lastN_append_lastN]
  unfold lastN
  by_cases hk : ((buf ++ b1) ++ b2).length - 1000 ≤ (buf ++ b1).length
  · refine ⟨(buf ++ b1).drop (((buf ++ b1) ++ b2).length - 1000), b2, ?_, ?_, ?_⟩
    · rw [List.drop_append_of_le_length hk]
    · exact List.drop_suffix _ _
    · exact List.suffix_refl _
  · refine ⟨[], b2.drop ((((buf ++ b1) ++ b2).length - 1000) - (buf ++ b1).length),
      ?_, List.nil_suffix, List.drop_suffix _ _⟩
    have hsplit : ((buf ++ b1) ++ b2).length - 1000
        = (buf ++ b1).length + ((((buf ++ b1) ++ b2).length - 1000) - (buf ++ b1).length) := by
      omega
    conv_lhs => rw [hsplit, ← List.drop_drop, List.drop_left]
    rw [List.nil_append]

theorem le_foldl_max : ∀ (l : List Nat) (m : Nat), m ≤ l.foldl Nat.max m
  | [], m => Nat.le_refl m
  | a :: l, m => Nat.le_trans (Nat.le_max_left m a) (le_foldl_max l (Nat.max m a))

theorem find_largest_loop_step (kv : String × JValue) (rest : List (String × JValue))
    (m : Nat) (best : Option String) :
    find_largest_loop (kv :: rest) m best =
      if arrLen kv.2 > m then find_largest_loop rest (arrLen kv.2) (some kv.1)
      else find_largest_loop rest m best := by
  obtain ⟨k, v⟩ := kv
  cases v <;> simp [find_largest_loop, arrLen]

theorem find_largest_loop_eq :
    ∀ (fields : List (String × JValue)) (m : Nat) (best : Option String),
      find_largest_loop fields m best =
        if (fields.map (fun kv => arrLen kv.2)).foldl Nat.max m ≤ m then best
        else (fields.find? (fun kv =>
          arrLen kv.2 == (fields.map (fun kv => arrLen kv.2)).foldl Nat.max m)).map Prod.fst := by
  intro fields
  induction fields with
  | nil => intro m best; simp [find_largest_loop]
  | cons kv rest ih =>
    intro m best
    rw [find_largest_loop_step]
    by_cases ha : arrLen kv.2 > m
    · rw [if_pos ha, ih]
      have hmax : Nat.max m (arrLen kv.2) = arrLen kv.2 := Nat.max_eq_right (Nat.le_of_lt ha)
      simp only [List.map_cons, List.foldl_cons, hmax]
      have hbase : arrLen kv.2 ≤ (rest.map (fun kv => arrLen kv.2)).foldl Nat.max (arrLen kv.2) :=
        le_foldl_max _ _
      by_cases hM : (rest.map (fun kv => arrLen kv.2)).foldl Nat.max (arrLen kv.2) ≤ arrLen kv.2
      · have hEq : (rest.map (fun kv => arrLen kv.2)).foldl Nat.max (arrLen kv.2) = arrLen kv.2 :=
          Nat.le_antisymm hM hbase
        rw [if_pos hM, if_neg (by omega), List.find?_cons_of_pos _ (by simp [hEq])]
        rfl
      · rw [if_neg hM, if_neg (by omega),
          List.find?_cons_of_neg _ (by simp only [beq_iff_eq]; omega)]
    · rw [if_neg ha, ih]
      have hle : arrLen kv.2 ≤ m := Nat.le_of_not_lt ha
      have hmax : Nat.max m (arrLen kv.2) = m := Nat.max_eq_left hle
      simp only [List.map_cons, List.foldl_cons, hmax]
      have hbase : m ≤ (rest.map (fun kv => arrLen kv.2)).foldl Nat.max m := le_foldl_max _ _
      by_cases hM : (rest.map (fun kv => arrLen kv.2)).foldl Nat.max m ≤ m
      · rw [if_pos hM, if_pos hM]
      · rw [if_neg hM, if_neg hM,
          List.find?_cons_of_neg _ (by simp only [beq_iff_eq]; omega)]

theorem find_main_data_key_eq_amended (fields : List (String × JValue)) :
    find_main_data_key fields = amended_find_main_data_key fields := by
  unfold find_main_data_key amended_find_main_data_key
  cases h : common_keys.find? (fun k => isArrValue (fields.lookup k)) with
  | some k => rfl
  | none =>
    show find_largest_loop fields 0 none = amended_find_largest fields
    rw [find_largest_loop_eq]
    unfold amended_find_largest
    by_cases hM : (fields.map (fun kv => arrLen kv.2)).foldl Nat.max 0 = 0
    · rw [if_pos (by omega), if_pos hM]
    · rw [if_neg (by omega), if_neg hM]

theorem parse_numeric_col_object (numParse : String → Option Int) (nm : String)
    (cells : List Cell) :
    parse_numeric_col numParse ⟨nm, Dtype.object, cells⟩ =
      if 2 * (cells.map (parse_numeric_cell numParse)).countP Option.isSome > cells.length then
        ⟨nm, Dtype.numeric, (cells.map (parse_numeric_cell numParse)).map (fun o =>
          match o with
          | some n => Cell.i n
          | none => Cell.null)⟩
      else ⟨nm, Dtype.object, cells⟩ := rfl

/-- C3: when normalization raises, the upload route answers with the
specific processing-error rejection and the stream buffer is left
untouched on every path; the append runs only after processing
succeeded. -/
theorem C3_upload_error_no_mutation {α : Type} (current_data : List α) (filename : String)
    (e : String) (records : List α) (file? : Option String) :
    (upload_data current_data file? (Except.error e)).2 = current_data
    ∧ (filename ≠ "" → allowed_file filename = true →
        upload_data current_data (some filename) (Except.error e)
          = (UploadResponse.err ("Error processing file: " ++ e) 500, current_data))
    ∧ (filename ≠ "" → allowed_file filename = true →
        upload_data current_data (some filename) (Except.ok records)
          = (UploadResponse.ok ("File " ++ filename ++ " uploaded and processed successfully")
              records.length,
             add_data_to_stream current_data records)) := by
  refine ⟨?_, ?_, ?_⟩
  · cases file? with
    | none => rfl
    | some fn =>
      unfold upload_data
      by_cases h1 : fn = ""
      · simp [h1]
      · by_cases h2 : allowed_file fn <;> simp [h1, h2]
  · intro h1 h2
    unfold upload_data
    simp [h1, h2]
  · intro h1 h2
    unfold upload_data
    simp [h1, h2]

/-- C3 witness: a concrete failing upload leaves a concrete buffer
unchanged and reports the reason. -/
theorem C3_upload_error_witness :
    upload_data [(1 : Nat)] (some "d.csv") (Except.error "boom")
      = (UploadResponse.err "Error processing file: boom" 500, [1]) := by
  exact (C3_upload_error_no_mutation [(1 : Nat)] "d.csv" "boom" [] (some "d.csv")).2.1
    (by decide) (by decide)

/-- C4 counterexample: the connect handler of `src/app.py` emits nothing at
all, even while the buffer already holds a record — the claim that the
connect operation immediately delivers a snapshot of the current buffer is
false for that handler. -/
theorem C4_counterexample :
    app_handle_connect [(0 : Nat)] = ([] : List (NewData Nat))
    ∧ ([(0 : Nat)] : List Nat) ≠ [] :=
  ⟨rfl, by decide⟩

/-- C4 (amended): in `src/generic_dashboard.py` a subscriber connecting
while the buffer is non-empty immediately receives exactly one snapshot
message holding the whole current buffer (hence containing data); the
connect handler of `src/app.py`, by contrast, only logs and delivers
nothing. -/
theorem C4_late_join_catch_up {α : Type} (now : Nat) (current_data : List α)
    (h : current_data ≠ []) :
    generic_handle_connect now current_data
        = [⟨current_data, current_data.length, now⟩]
    ∧ (generic_handle_connect now current_data).length = 1
    ∧ (∀ m ∈ generic_handle_connect now current_data, m.data ≠ [])
    ∧ app_handle_connect current_data = ([] : List (NewData α)) := by
  refine ⟨rfl, rfl, ?_, rfl⟩
  intro m hm
  simp only [generic_handle_connect, List.mem_singleton] at hm
  rw [hm]
  exact h

/-- C4 witness: a concrete late joiner receives the concrete buffer. -/
theorem C4_late_join_witness :
    generic_handle_connect 5 [(3 : Nat)] = [⟨[3], 1, 5⟩] :=
  (C4_late_join_catch_up 5 [3] (by decide)).1

/-- C5 counterexample: on the column `["12", null]` every non-null value
parses (so the claim adopts numeric), but the code divides by the full
frame length `len(df)` — 1 of 2 rows is not more than 50% — and leaves the
column textual. -/
theorem C5_counterexample :
    claim_adopts_numeric pyNum ⟨"v", Dtype.object, [Cell.s "12", Cell.null]⟩ = true
    ∧ parse_numeric_col pyNum ⟨"v", Dtype.object, [Cell.s "12", Cell.null]⟩
        = ⟨"v", Dtype.object, [Cell.s "12", Cell.null]⟩ := by
  constructor
  · decide
  · decide

/-- C5 (amended): an object column adopts the numeric type exactly when
strictly more than 50% of ALL rows (nulls included in the denominator, the
frame length) parse as numbers; otherwise it is left unchanged (hence
textual); scenario D behaves as claimed. -/
theorem C5_numeric_threshold (numParse : String → Option Int) (c : Col)
    (h : c.dtype = Dtype.object) :
    ((parse_numeric_col numParse c).dtype = Dtype.numeric
      ↔ 2 * (c.cells.map (parse_numeric_cell numParse)).countP Option.isSome > c.cells.length)
    ∧ (¬ 2 * (c.cells.map (parse_numeric_cell numParse)).countP Option.isSome > c.cells.length →
        parse_numeric_col numParse c = c)
    ∧ (2 * (c.cells.map (parse_numeric_cell numParse)).countP Option.isSome > c.cells.length →
        parse_numeric_col numParse c
          = ⟨c.name, Dtype.numeric, (c.cells.map (parse_numeric_cell numParse)).map (fun o =>
              match o with
              | some n => Cell.i n
              | none => Cell.null)⟩)
    ∧ parse_numeric_col pyNum ⟨"value", Dtype.object,
        [Cell.s "12", Cell.s "abc", Cell.s "7", Cell.s "9"]⟩
        = ⟨"value", Dtype.numeric, [Cell.i 12, Cell.null, Cell.i 7, Cell.i 9]⟩
    ∧ parse_numeric_col pyNum ⟨"value", Dtype.object,
        [Cell.s "12", Cell.s "abc", Cell.s "xyz", Cell.s "9"]⟩
        = ⟨"value", Dtype.object, [Cell.s "12", Cell.s "abc", Cell.s "xyz", Cell.s "9"]⟩ := by
  obtain ⟨nm, dt, cells⟩ := c
  simp only [Col.dtype] at h
  subst h
  refine ⟨?_, ?_, ?_, by decide, by decide⟩
  · rw [parse_numeric_col_object]
    by_cases hcond :
      2 * (cells.map (parse_numeric_cell numParse)).countP Option.isSome > cells.length
    · rw [if_pos hcond]
      exact iff_of_true rfl hcond
    · rw [if_neg hcond]
      exact iff_of_false (fun hh => nomatch hh) hcond
  · intro hcond
    rw [parse_numeric_col_object, if_neg hcond]
  · intro hcond
    rw [parse_numeric_col_object, if_pos hcond]

/-- C5 witness: a concrete all-numeric column is adopted as numeric via the
amended threshold. -/
theorem C5_numeric_threshold_witness :
    (parse_numeric_col pyNum ⟨"w", Dtype.object, [Cell.s "5"]⟩).dtype = Dtype.numeric := by
  exact ((C5_numeric_threshold pyNum ⟨"w", Dtype.object, [Cell.s "5"]⟩ rfl).1).mpr (by decide)

/-- C6 counterexample: on `{"foo": []}` an array-valued field exists, so
the claimed selection order picks `foo` (0 records), but the code's loop
never selects an empty array (strict comparison against an initial maximum
of 0) and falls through to the flattened single record. -/
theorem C6_counterexample :
    find_main_data_key [("foo", JValue.arr [])] = none
    ∧ claim_find_main_data_key [("foo", JValue.arr [])] = some "foo"
    ∧ process_json_value (JValue.obj [("foo", JValue.arr [])])
        = Except.ok [JValue.obj (flatten_fields [("foo", JValue.arr [])])] :=
  ⟨rfl, rfl, rfl⟩

/-- C6 (amended): the record source is chosen in order — first conventional
container key holding an array, else the NON-EMPTY array field with the
greatest element count (ties by first-encountered key), else the flattened
single record; additionally a selected key equal to the empty string is
rejected by the truthiness guard of line 49, so an object whose largest
array sits under the empty-string key is also flattened.  Scenario B
selects `results` and produces exactly 2 records. -/
theorem C6_record_source_selection :
    (∀ fields : List (String × JValue),
        find_main_data_key fields = amended_find_main_data_key fields)
    ∧ (∀ fields : List (String × JValue),
        fields.all (fun kv => isScalar kv.2) = false →
          process_json_value (JValue.obj fields) = select_records fields)
    ∧ (∀ (fields : List (String × JValue)) (k : String) (xs : List JValue),
        find_main_data_key fields = some k → k ≠ "" →
          fields.lookup k = some (JValue.arr xs) →
          select_records fields = Except.ok xs)
    ∧ (∀ fields : List (String × JValue),
        find_main_data_key fields = some "" →
          select_records fields = Except.ok [JValue.obj (flatten_fields fields)])
    ∧ (∀ fields : List (String × JValue),
        find_main_data_key fields = none →
          select_records fields = Except.ok [JValue.obj (flatten_fields fields)])
    ∧ find_main_data_key [("", JValue.arr [JValue.num 1])] = some ""
    ∧ process_json_value (JValue.obj [("", JValue.arr [JValue.num 1])])
        = Except.ok [JValue.obj (flatten_fields [("", JValue.arr [JValue.num 1])])]
    ∧ find_main_data_key
        [("results", JValue.arr [JValue.obj [("x", JValue.num 1)],
          JValue.obj [("x", JValue.num 2)]])] = some "results"
    ∧ process_json_value (JValue.obj [("results",
        JValue.arr [JValue.obj [("x", JValue.num 1)], JValue.obj [("x", JValue.num 2)]])])
        = Except.ok [JValue.obj [("x", JValue.num 1)], JValue.obj [("x", JValue.num 2)]]
    ∧ [JValue.obj [("x", JValue.num 1)], JValue.obj [("x", JValue.num 2)]].length = 2 := by
  refine ⟨find_main_data_key_eq_amended, ?_, ?_, ?_, ?_, rfl, rfl, rfl, rfl, rfl⟩
  · intro fields hsc
    simp [process_json_value, hsc]
  · intro fields k xs hfind hk hlookup
    simp only [select_records, hfind]
    rw [if_neg hk]
    simp only [hlookup]
  · intro fields hfind
    simp [select_records, hfind]
  · intro fields hfind
    simp only [select_records, hfind]

/-- C6 witness: concrete selections through the proven conjuncts — a
conventional key is selected, the all-scalar gate routes through
`select_records`, and the empty-string key is rejected into the flattened
record. -/
theorem C6_record_source_witness :
    select_records [("items", JValue.arr [JValue.num 5])] = Except.ok [JValue.num 5]
    ∧ process_json_value (JValue.obj [("items", JValue.arr [JValue.num 5])])
        = select_records [("items", JValue.arr [JValue.num 5])]
    ∧ select_records [("", JValue.arr [JValue.num 1])]
        = Except.ok [JValue.obj (flatten_fields [("", JValue.arr [JValue.num 1])])] := by
  refine ⟨?_, ?_, ?_⟩
  · exact C6_record_source_selection.2.2.1 [("items", JValue.arr [JValue.num 5])]
      "items" [JValue.num 5] rfl (by decide) rfl
  · exact C6_record_source_selection.2.1 [("items", JValue.arr [JValue.num 5])] rfl
  · exact C6_record_source_selection.2.2.2.1 [("", JValue.arr [JValue.num 1])] rfl

/-- C7: the CSV reader tries utf-8, then latin-1, then cp1252 in that fixed
order, uses the first whose decode succeeds, and raises the undecodable
error instead of returning records when every candidate fails to decode. -/
theorem C7_csv_encoding_fallback {δ : Type} (read : String → ReadResult δ) (d : δ) :
    encodings = ["utf-8", "latin-1", "cp1252"]
    ∧ (read "utf-8" = ReadResult.ok d → read_csv_with_fallback read = Except.ok d)
    ∧ (read "utf-8" = ReadResult.unicodeError → read "latin-1" = ReadResult.ok d →
        read_csv_with_fallback read = Except.ok d)
    ∧ (read "utf-8" = ReadResult.unicodeError → read "latin-1" = ReadResult.unicodeError →
        read "cp1252" = ReadResult.ok d → read_csv_with_fallback read = Except.ok d)
    ∧ ((∀ e ∈ encodings, read e = ReadResult.unicodeError) →
        read_csv_with_fallback read = Except.error CsvFailure.undecodable) := by
  refine ⟨rfl, ?_, ?_, ?_, ?_⟩
  · intro h1
    simp [read_csv_with_fallback, csv_read_loop, encodings, h1]
  · intro h1 h2
    simp [read_csv_with_fallback, csv_read_loop, encodings, h1, h2]
  · intro h1 h2 h3
    simp [read_csv_with_fallback, csv_read_loop, encodings, h1, h2, h3]
  · intro h
    have h1 := h "utf-8" (by simp [encodings])
    have h2 := h "latin-1" (by simp [encodings])
    have h3 := h "cp1252" (by simp [encodings])
    simp [read_csv_with_fallback, csv_read_loop, encodings, h1, h2, h3]

/-- C7 witness: with every decode failing the undecodable error is raised;
with only latin-1 decoding, its frame is the one returned. -/
theorem C7_csv_encoding_witness :
    read_csv_with_fallback readAllFail = Except.error CsvFailure.undecodable
    ∧ read_csv_with_fallback readLatin1Only = Except.ok 7 :=
  ⟨(C7_csv_encoding_fallback readAllFail 0).2.2.2.2 (fun _ _ => rfl),
   (C7_csv_encoding_fallback readLatin1Only 7).2.2.1 rfl rfl⟩

/-- C8 counterexample: on the keyword column `date` with cells
`["2024-01-01", "bad"]` the code (to_datetime with errors='ignore') leaves
the ENTIRE column unchanged as text, while the claim demands timestamp
adoption with the unparseable cell nulled. -/
theorem C8_counterexample :
    parse_datetime_col dtParse0 epochId
        ⟨"date", Dtype.object, [Cell.s "2024-01-01", Cell.s "bad"]⟩
      = ⟨"date", Dtype.object, [Cell.s "2024-01-01", Cell.s "bad"]⟩
    ∧ claim_parse_datetime_col dtParse0 epochId
        ⟨"date", Dtype.object, [Cell.s "2024-01-01", Cell.s "bad"]⟩
      = ⟨"date", Dtype.datetime, [Cell.t 1704067200, Cell.null]⟩ := by
  constructor
  · decide
  · decide

/-- C8 (amended): a temporal-keyword column adopts the timestamp type only
when EVERY cell converts (nulls becoming NaT); if any cell fails to parse
the whole column is left unchanged rather than cell-wise nulled;
non-keyword columns are untouched. -/
theorem C8_datetime_column_inference (dtParse : String → Option Nat) (epochConv : Int → Nat)
    (c c2 : Col) (hk : hasDatetimeKeyword c.name = true)
    (hk2 : hasDatetimeKeyword c2.name = false) :
    ((∀ x ∈ c.cells, (cellToTimestamp dtParse epochConv x).isSome = true) →
        parse_datetime_col dtParse epochConv c
          = ⟨c.name, Dtype.datetime, c.cells.map (fun x =>
              match cellToTimestamp dtParse epochConv x with
              | some (some ts) => Cell.t ts
              | _ => Cell.null)⟩)
    ∧ ((∃ x ∈ c.cells, cellToTimestamp dtParse epochConv x = none) →
        parse_datetime_col dtParse epochConv c = c)
    ∧ parse_datetime_col dtParse epochConv c2 = c2 := by
  refine ⟨?_, ?_, by simp [parse_datetime_col, hk2]⟩
  · intro hall
    have hcond : c.cells.all (fun x => (cellToTimestamp dtParse epochConv x).isSome) = true := by
      rw [List.all_eq_true]
      exact hall
    simp [parse_datetime_col, hk, to_datetime_ignore, hcond]
  · rintro ⟨x, hx, hnone⟩
    have hcond : c.cells.all (fun x => (cellToTimestamp dtParse epochConv x).isSome) = false := by
      rw [← Bool.not_eq_true, List.all_eq_true]
      intro hall
      have := hall x hx
      rw [hnone] at this
      exact absurd this (by decide)
    simp [parse_datetime_col, hk, to_datetime_ignore, hcond]

/-- C8 witness: a concrete keyword column whose cells all convert becomes a
timestamp column with the null preserved. -/
theorem C8_datetime_witness :
    parse_datetime_col dtParse0 epochId
        ⟨"start_time", Dtype.object, [Cell.s "2024-01-01", Cell.null]⟩
      = ⟨"start_time", Dtype.datetime, [Cell.t 1704067200, Cell.null]⟩ := by
  have h := (C8_datetime_column_inference dtParse0 epochId
    ⟨"start_time", Dtype.object, [Cell.s "2024-01-01", Cell.null]⟩
    ⟨"z", Dtype.object, []⟩ (by decide) (by decide)).1 (by decide)
  rw [h]
  decide

/-- C9 counterexample: two runs of `_clean_dataframe` on the same input at
different wall-clock instants produce different outputs — the attached
`_processed_at` metadata column holds `datetime.now()`, so the outputs are
not byte-for-byte identical. -/
theorem C9_counterexample :
    clean_dataframe pyNum dtParse0 epochId 0 [⟨"a", Dtype.object, [Cell.s "x"]⟩]
      ≠ clean_dataframe pyNum dtParse0 epochId 1 [⟨"a", Dtype.object, [Cell.s "x"]⟩] := by
  decide

/-- C9 (amended): the normalization pipeline is deterministic up to the
`_processed_at` wall-clock metadata — for any two run instants the outputs
agree exactly once that column is disregarded, and the inferred column
names and types agree in full. -/
theorem C9_determinism_up_to_processed_at
    (numParse : String → Option Int) (dtParse : String → Option Nat) (epochConv : Int → Nat)
    (t1 t2 : Nat) (df : List Col) :
    drop_processed_at (clean_dataframe numParse dtParse epochConv t1 df)
      = drop_processed_at (clean_dataframe numParse dtParse epochConv t2 df)
    ∧ dtypes (clean_dataframe numParse dtParse epochConv t1 df)
      = dtypes (clean_dataframe numParse dtParse epochConv t2 df) := by
  have h1 : (("_processed_at" : String) == "_processed_at") = true := rfl
  have h2 : (("_record_id" : String) == "_processed_at") = false := rfl
  constructor
  · unfold clean_dataframe drop_processed_at
    simp [List.filter_append, List.filter_cons, h1, h2]
  · unfold clean_dataframe dtypes
    simp [List.map_append]

/-- C10: feeding `WebSocketServer.add_data` a value that is neither a dict
nor a list returns before any mutation or emission: the buffer is unchanged
and no broadcast is produced. -/
theorem C10_unsupported_type_frame {α : Type} (now : Nat) (payload_list : List α) :
    ws_add_data now payload_list PyData.other = (payload_list, []) := rfl

end WKS
